import Mathlib

/-!
Verification of the shared-state arbitration core of an FTDI FT232H
embedded-hal adapter (`src/src/lib.rs`).

The device state (`Ft232hInner`), the pin ledger (`allocate_pin`), the
`MpsseSettings` configuration record and the typestate wrapper
(`Ft232hHal<Uninitialized/Initialized>`) are embedded directly from the
source.  Rust panics are modelled as `Except.error` results paired with
the device state as it stood when the panic fired; `u8` fields are
modelled as `Nat` (every value the program stores in them is below 256,
and the index guard `idx < 8` behaves identically).  The peripheral-view
constructors (`Spi::new`, `I2c::new`, `OutputPin::new`) live in module
files that are not part of the source tree, so they are modelled from
the spec where a claim needs them.
-/

/-- State tracker for each pin on the FTDI chip (`PinUse`, src/src/lib.rs:89-93). -/
inductive PinUse where
  | i2c
  | spi
  | output
deriving DecidableEq

/-- Outcome of a Rust panic in the pin ledger.  `outOfRange` embeds the
`assert!(idx < 8, ...)` failure; `alreadyAllocated` embeds the
`panic!("Unable to allocate pin ...")` failure, carrying the requested and
current purposes exactly as the panic message does. -/
inductive PinError where
  | outOfRange (idx : Nat)
  | alreadyAllocated (idx : Nat) (requested current : PinUse)
deriving DecidableEq

/-- Device state (`Ft232hInner`, src/src/lib.rs:105-115): driver handle,
GPIO direction mask, GPIO value mask, and the 8-slot pin allocation table.
The opaque driver handle `Ft232h` is modelled as a `Nat` token. -/
structure Ft232hInner where
  ft : Nat
  direction : Nat
  value : Nat
  pins : Fin 8 → Option PinUse

/-- Allocate a pin for a specific use (`Ft232hInner::allocate_pin`,
src/src/lib.rs:119-130).  The source asserts `idx < 8` first, then panics
if the slot is occupied, else writes the slot.  A failure returns the
state unchanged, since both panics fire before any mutation. -/
def Ft232hInner.allocate_pin (s : Ft232hInner) (idx : Nat) (purpose : PinUse) :
    Except PinError Unit × Ft232hInner :=
  if h : idx < 8 then
    match s.pins ⟨idx, h⟩ with
    | some current => (Except.error (PinError.alreadyAllocated idx purpose current), s)
    | none =>
        (Except.ok (), { s with pins := Function.update s.pins ⟨idx, h⟩ (some purpose) })
  else
    (Except.error (PinError.outOfRange idx), s)

/-- Fresh device state (`impl From<Ft232h> for Ft232hInner`,
src/src/lib.rs:133-142): direction mask `0xFB`, value mask `0x00`, all
pin slots free. -/
def Ft232hInner.ofFt (ft : Nat) : Ft232hInner :=
  { ft := ft, direction := 0xFB, value := 0x00, pins := fun _ => none }

/-- Duration, modelled in whole milliseconds (the source only ever builds
`Duration::from_secs(1)` and `Duration::from_millis(16)`). -/
structure Duration where
  millis : Nat
deriving DecidableEq

/-- Embeds `Duration::from_secs`. -/
def Duration.from_secs (s : Nat) : Duration :=
  ⟨s * 1000⟩

/-- Embeds `Duration::from_millis`. -/
def Duration.from_millis (ms : Nat) : Duration :=
  ⟨ms⟩

/-- MPSSE configuration record (`libftd2xx::MpsseSettings` as used by the
source: src/src/lib.rs:236-244). -/
structure MpsseSettings where
  reset : Bool
  in_transfer_size : Nat
  read_timeout : Duration
  write_timeout : Duration
  latency_timer : Duration
  mask : Nat
  clock_frequency : Option Nat
deriving DecidableEq

/-- The `DEFAULT` settings constant of `init_default`
(src/src/lib.rs:236-244). -/
def DEFAULT : MpsseSettings :=
  { reset := true
    in_transfer_size := 4096
    read_timeout := Duration.from_secs 1
    write_timeout := Duration.from_secs 1
    latency_timer := Duration.from_millis 16
    mask := 0x00
    clock_frequency := some 100000 }

/-- Typestate phase of the wrapper (`Uninitialized` / `Initialized`,
src/src/lib.rs:149-156). -/
inductive Phase where
  | uninitialized
  | initialized
deriving DecidableEq

/-- Typestate device wrapper (`Ft232hHal<INITIALIZED>`,
src/src/lib.rs:159-164).  The `Mutex<RefCell<...>>` collapses to the
inner state in this sequential embedding. -/
structure Ft232hHal (phase : Phase) where
  inner : Ft232hInner

/-- Embeds `impl From<Ft232h> for Ft232hHal<Uninitialized>`
(src/src/lib.rs:296-330). -/
def Ft232hHal.ofFt (ft : Nat) : Ft232hHal Phase.uninitialized :=
  ⟨Ft232hInner.ofFt ft⟩

/-- Embeds `Ft232hHal::<Uninitialized>::init` (src/src/lib.rs:277-293).
The second component of the result is the settings value the source
passes to the driver call `inner.ft.initialize_mpsse(&mpsse_settings)`.
The source first builds a local copy `settings` with
`settings.mask = inner.direction` (line 285) but then passes the original
`mpsse_settings` argument at line 286, so the local copy is dead code;
the embedding keeps both, faithfully. -/
def Ft232hHal.init (hal : Ft232hHal Phase.uninitialized)
    (mpsse_settings : MpsseSettings) :
    Ft232hHal Phase.initialized × MpsseSettings :=
  let inner := hal.inner
  let settings := { mpsse_settings with mask := inner.direction }
  (⟨inner⟩, mpsse_settings)

/-- Embeds `Ft232hHal::<Uninitialized>::init_default`
(src/src/lib.rs:235-247): `self.init(&DEFAULT)`. -/
def Ft232hHal.init_default (hal : Ft232hHal Phase.uninitialized) :
    Ft232hHal Phase.initialized × MpsseSettings :=
  hal.init DEFAULT

/-- Sequential pin-ledger claims: claim each `(index, purpose)` pair in
turn through `Ft232hInner.allocate_pin`, stopping at the first failure
with the state as it stood when that failure fired (a Rust panic aborts
the constructor there). -/
def allocSeq (l : List (Nat × PinUse)) (s : Ft232hInner) :
    Except PinError Unit × Ft232hInner :=
  match l with
  | [] => (Except.ok (), s)
  | (idx, p) :: rest =>
    match s.allocate_pin idx p with
    | (Except.error e, s1) => (Except.error e, s1)
    | (Except.ok _, s1) => allocSeq rest s1

/-- Modelled from the spec: `Spi::new` lives in the `spi` module, whose
file is absent from the source tree.  Spec section 4.3: `acquire_spi`
claims pins 0, 1 and 2 in the pin ledger for the SPI serial-bus role and
fails fatally if any of the three is already claimed; section 4.4: the
ledger claim is its only observable device-state side effect. -/
def Spi.new (s : Ft232hInner) : Except PinError Unit × Ft232hInner :=
  allocSeq [(0, PinUse.spi), (1, PinUse.spi), (2, PinUse.spi)] s

/-- Modelled from the spec: `I2c::new` lives in the `i2c` module, whose
file is absent from the source tree.  Spec section 4.3: `acquire_i2c`
claims pins 0, 1 and 2 in the pin ledger for the I2C serial-bus role and
fails fatally if any of the three is already claimed; section 4.4: the
ledger claim is its only observable device-state side effect. -/
def I2c.new (s : Ft232hInner) : Except PinError Unit × Ft232hInner :=
  allocSeq [(0, PinUse.i2c), (1, PinUse.i2c), (2, PinUse.i2c)] s

/-- Modelled from the spec: `OutputPin::new` lives in the `gpio` module,
whose file is absent from the source tree.  Spec section 4.3:
`acquire_output(pin_index)` claims exactly that one pin for the
discrete-output role and fails fatally if it is already claimed. -/
def OutputPin.new (s : Ft232hInner) (idx : Nat) :
    Except PinError Unit × Ft232hInner :=
  s.allocate_pin idx PinUse.output

/-- Embeds `Ft232hHal::<Initialized>::spi` (src/src/lib.rs:353-355):
`Spi::new(&self.mtx)`. -/
def Ft232hHal.spi (hal : Ft232hHal Phase.initialized) :
    Except PinError Unit × Ft232hHal Phase.initialized :=
  ((Spi.new hal.inner).1, ⟨(Spi.new hal.inner).2⟩)

/-- Embeds `Ft232hHal::<Initialized>::i2c` (src/src/lib.rs:380-382):
`I2c::new(&self.mtx)`. -/
def Ft232hHal.i2c (hal : Ft232hHal Phase.initialized) :
    Except PinError Unit × Ft232hHal Phase.initialized :=
  ((I2c.new hal.inner).1, ⟨(I2c.new hal.inner).2⟩)

/-- Embeds `Ft232hHal::<Initialized>::ad0` through `ad7`
(src/src/lib.rs:389-454) uniformly: `adPin k` is `adk`, each being
`OutputPin::new(&self.mtx, k)`. -/
def Ft232hHal.adPin (hal : Ft232hHal Phase.initialized) (k : Nat) :
    Except PinError Unit × Ft232hHal Phase.initialized :=
  ((OutputPin.new hal.inner k).1, ⟨(OutputPin.new hal.inner k).2⟩)

/-- One operation on the shared device state: the ledger primitive itself
(src/src/lib.rs:119-130) or one of the view constructors, whose only
device-state effect is its ledger claim (spec section 4.4). -/
inductive DeviceOp where
  | allocate (idx : Nat) (purpose : PinUse)
  | spiNew
  | i2cNew
  | outputNew (idx : Nat)

/-- Run a device-state operation. -/
def DeviceOp.run : DeviceOp → Ft232hInner → Except PinError Unit × Ft232hInner
  | DeviceOp.allocate idx purpose, s => s.allocate_pin idx purpose
  | DeviceOp.spiNew, s => Spi.new s
  | DeviceOp.i2cNew, s => I2c.new s
  | DeviceOp.outputNew idx, s => OutputPin.new s idx

/-- Public operations of the typestate wrapper, reified: the three
open/discovery constructors (src/src/lib.rs:177-212), the `From<Ft232h>`
conversion (296-330), the two initialization operations (235-293) from
`impl Ft232hHal<Uninitialized>`, and the peripheral-view acquisitions
(353-454) from `impl Ft232hHal<Initialized>`. -/
inductive ApiOp where
  | new
  | with_serial_number
  | with_description
  | from_ft
  | init
  | init_default
  | spi
  | i2c
  | ad (k : Fin 8)
deriving DecidableEq

/-- Phase of the wrapper an operation takes as `self`, read off the `impl`
block it is declared in; `none` for the constructors, which take none. -/
def ApiOp.inputPhase : ApiOp → Option Phase
  | ApiOp.new => none
  | ApiOp.with_serial_number => none
  | ApiOp.with_description => none
  | ApiOp.from_ft => none
  | ApiOp.init => some Phase.uninitialized
  | ApiOp.init_default => some Phase.uninitialized
  | ApiOp.spi => some Phase.initialized
  | ApiOp.i2c => some Phase.initialized
  | ApiOp.ad _ => some Phase.initialized

/-- Phase of the wrapper an operation returns; `none` when it returns no
wrapper (the acquisitions return peripheral views). -/
def ApiOp.outputPhase : ApiOp → Option Phase
  | ApiOp.new => some Phase.uninitialized
  | ApiOp.with_serial_number => some Phase.uninitialized
  | ApiOp.with_description => some Phase.uninitialized
  | ApiOp.from_ft => some Phase.uninitialized
  | ApiOp.init => some Phase.initialized
  | ApiOp.init_default => some Phase.initialized
  | ApiOp.spi => none
  | ApiOp.i2c => none
  | ApiOp.ad _ => none

/-- Whether the operation produces a peripheral view. -/
def ApiOp.acquiresView : ApiOp → Bool
  | ApiOp.spi => true
  | ApiOp.i2c => true
  | ApiOp.ad _ => true
  | _ => false

/-- Whether the operation consumes its wrapper (`self` taken by value in
the source). -/
def ApiOp.consumesWrapper : ApiOp → Bool
  | ApiOp.init => true
  | ApiOp.init_default => true
  | _ => false

lemma allocate_pin_oob (s : Ft232hInner) (idx : Nat) (purpose : PinUse)
    (h : ¬ idx < 8) :
    s.allocate_pin idx purpose = (Except.error (PinError.outOfRange idx), s) := by
  unfold Ft232hInner.allocate_pin
  rw [dif_neg h]

lemma allocate_pin_occupied (s : Ft232hInner) (idx : Nat) (purpose u : PinUse)
    (h : idx < 8) (hocc : s.pins ⟨idx, h⟩ = some u) :
    s.allocate_pin idx purpose
      = (Except.error (PinError.alreadyAllocated idx purpose u), s) := by
  unfold Ft232hInner.allocate_pin
  rw [dif_pos h, hocc]

lemma allocate_pin_free (s : Ft232hInner) (idx : Nat) (purpose : PinUse)
    (h : idx < 8) (hfree : s.pins ⟨idx, h⟩ = none) :
    s.allocate_pin idx purpose
      = (Except.ok (),
         { s with pins := Function.update s.pins ⟨idx, h⟩ (some purpose) }) := by
  unfold Ft232hInner.allocate_pin
  rw [dif_pos h, hfree]

lemma allocate_pin_fst_ok {s : Ft232hInner} {idx : Nat} {purpose : PinUse}
    (h : (s.allocate_pin idx purpose).1 = Except.ok ()) :
    ∃ hlt : idx < 8, s.pins ⟨idx, hlt⟩ = none := by
  by_cases hlt : idx < 8
  · refine ⟨hlt, ?_⟩
    cases hp : s.pins ⟨idx, hlt⟩ with
    | none => rfl
    | some u =>
        rw [allocate_pin_occupied s idx purpose u hlt hp] at h
        exact absurd h (by simp)
  · rw [allocate_pin_oob s idx purpose hlt] at h
    exact absurd h (by simp)

lemma allocate_pin_preserves (s : Ft232hInner) (idx : Nat) (q : PinUse)
    (p : Fin 8) (u : PinUse) (h : s.pins p = some u) :
    ((s.allocate_pin idx q).2).pins p = some u := by
  by_cases hlt : idx < 8
  · cases hp : s.pins ⟨idx, hlt⟩ with
    | some w => rw [allocate_pin_occupied s idx q w hlt hp]; exact h
    | none =>
        rw [allocate_pin_free s idx q hlt hp]
        have hne : p ≠ ⟨idx, hlt⟩ := by
          intro he
          rw [he, hp] at h
          exact absurd h (by simp)
        show Function.update s.pins ⟨idx, hlt⟩ (some q) p = some u
        rw [Function.update_noteq hne, h]
  · rw [allocate_pin_oob s idx q hlt]; exact h

lemma allocate_pin_masks (s : Ft232hInner) (idx : Nat) (q : PinUse) :
    ((s.allocate_pin idx q).2).ft = s.ft ∧
    ((s.allocate_pin idx q).2).direction = s.direction ∧
    ((s.allocate_pin idx q).2).value = s.value := by
  by_cases hlt : idx < 8
  · cases hp : s.pins ⟨idx, hlt⟩ with
    | some w => rw [allocate_pin_occupied s idx q w hlt hp]; exact ⟨rfl, rfl, rfl⟩
    | none => rw [allocate_pin_free s idx q hlt hp]; exact ⟨rfl, rfl, rfl⟩
  · rw [allocate_pin_oob s idx q hlt]; exact ⟨rfl, rfl, rfl⟩

lemma allocSeq_preserves (l : List (Nat × PinUse)) (s : Ft232hInner)
    (p : Fin 8) (u : PinUse) (h : s.pins p = some u) :
    ((allocSeq l s).2).pins p = some u := by
  induction l generalizing s with
  | nil => exact h
  | cons ip rest ih =>
      obtain ⟨idx, q⟩ := ip
      have h1 := allocate_pin_preserves s idx q p u h
      rcases he : s.allocate_pin idx q with ⟨r, s1⟩
      rw [he] at h1
      cases r with
      | error e => simpa [allocSeq, he] using h1
      | ok v => simpa [allocSeq, he] using ih s1 h1

lemma allocSeq_masks (l : List (Nat × PinUse)) (s : Ft232hInner) :
    ((allocSeq l s).2).ft = s.ft ∧
    ((allocSeq l s).2).direction = s.direction ∧
    ((allocSeq l s).2).value = s.value := by
  induction l generalizing s with
  | nil => exact ⟨rfl, rfl, rfl⟩
  | cons ip rest ih =>
      obtain ⟨idx, q⟩ := ip
      have h1 := allocate_pin_masks s idx q
      rcases he : s.allocate_pin idx q with ⟨r, s1⟩
      rw [he] at h1
      cases r with
      | error e => simpa [allocSeq, he] using h1
      | ok v =>
          have h2 := ih s1
          simp only [allocSeq, he]
          exact ⟨h2.1.trans h1.1, h2.2.1.trans h1.2.1, h2.2.2.trans h1.2.2⟩

lemma allocSeq_ok_claims (l : List (Nat × PinUse)) (s : Ft232hInner)
    (h : (allocSeq l s).1 = Except.ok ()) :
    ∀ ip ∈ l, ∃ hlt : ip.1 < 8, ((allocSeq l s).2).pins ⟨ip.1, hlt⟩ = some ip.2 := by
  induction l generalizing s with
  | nil => intro ip hip; cases hip
  | cons hd rest ih =>
      obtain ⟨idx, q⟩ := hd
      rcases he : s.allocate_pin idx q with ⟨r, s1⟩
      cases r with
      | error e =>
          rw [show allocSeq ((idx, q) :: rest) s = (Except.error e, s1) from by
                simp [allocSeq, he]] at h
          exact absurd h (by simp)
      | ok v =>
          have hseq : allocSeq ((idx, q) :: rest) s = allocSeq rest s1 := by
            simp [allocSeq, he]
          rw [hseq] at h ⊢
          intro ip hip
          rcases List.mem_cons.mp hip with hip | hip
          · subst hip
            have hok : (s.allocate_pin idx q).1 = Except.ok () := by rw [he]
            obtain ⟨hlt, hfree⟩ := allocate_pin_fst_ok hok
            have hupd := allocate_pin_free s idx q hlt hfree
            rw [hupd] at he
            injection he with he1 he2
            have hs1 : s1.pins ⟨idx, hlt⟩ = some q := by
              rw [← he2]
              simp [Function.update_same]
            exact ⟨hlt, allocSeq_preserves rest s1 ⟨idx, hlt⟩ q hs1⟩
          · exact ih s1 h ip hip

lemma allocSeq_head_occupied (idx : Nat) (p : PinUse)
    (rest : List (Nat × PinUse)) (s : Ft232hInner) (u : PinUse)
    (hlt : idx < 8) (hocc : s.pins ⟨idx, hlt⟩ = some u) :
    allocSeq ((idx, p) :: rest) s
      = (Except.error (PinError.alreadyAllocated idx p u), s) := by
  simp [allocSeq, allocate_pin_occupied s idx p u hlt hocc]

/-- C1: refuted by the code.  `init` builds a local settings copy with
`mask := inner.direction` (src/src/lib.rs:285) but then passes the
original caller-supplied `mpsse_settings` to the driver call at line 286,
so the configuration the driver receives keeps the caller's mask
verbatim; concretely, from a fresh device the driver receives the
`DEFAULT` mask `0x00` while the ledger's direction bits are `0xFB`. -/
theorem init_passes_caller_mask_unchanged :
    (∀ (hal : Ft232hHal Phase.uninitialized) (s : MpsseSettings),
        (hal.init s).2 = s) ∧
    ((Ft232hHal.ofFt 0).init DEFAULT).2.mask = 0x00 ∧
    (Ft232hHal.ofFt 0).inner.direction = 0xFB :=
  ⟨fun _ _ => rfl, rfl, rfl⟩

/-- C2: after a successful `allocate_pin p u1`, a second
`allocate_pin p u2` on the resulting state fails with the
already-allocated panic, and the ledger still records `u1` as the owner
of slot `p` after the failed call. -/
theorem allocate_pin_then_realloc_fails (s : Ft232hInner) (p : Fin 8)
    (u1 u2 : PinUse) (h : (s.allocate_pin p.val u1).1 = Except.ok ()) :
    ((s.allocate_pin p.val u1).2.allocate_pin p.val u2).1
        = Except.error (PinError.alreadyAllocated p.val u2 u1) ∧
    ((s.allocate_pin p.val u1).2.allocate_pin p.val u2).2.pins p = some u1 := by
  obtain ⟨hlt, hfree⟩ := allocate_pin_fst_ok h
  have hown : (s.allocate_pin p.val u1).2.pins ⟨p.val, hlt⟩ = some u1 := by
    rw [allocate_pin_free s p.val u1 hlt hfree]
    simp [Function.update_same]
  rw [allocate_pin_occupied (s.allocate_pin p.val u1).2 p.val u2 u1 hlt hown]
  exact ⟨rfl, hown⟩

/-- C2 witness: on a fresh device, claiming pin 3 for GPIO succeeds, and
claiming pin 3 again for SPI fails naming GPIO as the current owner. -/
theorem allocate_pin_then_realloc_fails_witness :
    ((Ft232hInner.ofFt 0).allocate_pin (3 : Nat) PinUse.output).1 = Except.ok () ∧
    (((Ft232hInner.ofFt 0).allocate_pin (3 : Nat) PinUse.output).2.allocate_pin
        (3 : Nat) PinUse.spi).1
      = Except.error (PinError.alreadyAllocated 3 PinUse.spi PinUse.output) :=
  ⟨rfl,
   (allocate_pin_then_realloc_fails (Ft232hInner.ofFt 0) ⟨3, by decide⟩
      PinUse.output PinUse.spi rfl).1⟩

/-- C3: for any index outside 0-7 the allocation fails with the
out-of-range panic and returns the state completely unchanged: pin
table, direction mask, value mask and driver handle are all untouched. -/
theorem allocate_pin_out_of_range (s : Ft232hInner) (idx : Nat)
    (purpose : PinUse) (h : 8 ≤ idx) :
    s.allocate_pin idx purpose = (Except.error (PinError.outOfRange idx), s) :=
  allocate_pin_oob s idx purpose (by omega)

/-- C3 witness: allocating pin 9 on a fresh device fails out-of-range and
leaves the state untouched. -/
theorem allocate_pin_out_of_range_witness :
    8 ≤ 9 ∧
    (Ft232hInner.ofFt 0).allocate_pin 9 PinUse.i2c
      = (Except.error (PinError.outOfRange 9), Ft232hInner.ofFt 0) :=
  ⟨by decide, allocate_pin_out_of_range (Ft232hInner.ofFt 0) 9 PinUse.i2c (by decide)⟩

/-- C4: `init_default` supplies exactly the `DEFAULT` constant to the
initialization path, whose fields are reset = true, transfer size 4096,
read and write timeouts of 1 s, latency timer of 16 ms and a 100 kHz
clock. -/
theorem init_default_supplies_documented_defaults :
    (∀ hal : Ft232hHal Phase.uninitialized, hal.init_default = hal.init DEFAULT) ∧
    DEFAULT.reset = true ∧
    DEFAULT.in_transfer_size = 4096 ∧
    DEFAULT.read_timeout = Duration.from_secs 1 ∧
    DEFAULT.write_timeout = Duration.from_secs 1 ∧
    DEFAULT.latency_timer = Duration.from_millis 16 ∧
    DEFAULT.clock_frequency = some 100000 :=
  ⟨fun _ => rfl, rfl, rfl, rfl, rfl, rfl, rfl⟩

/-- C5: counterexample.  In the freshly created device state no
peripheral view is active (every ledger slot is free), yet the direction
mask is `0xFB`, not `0` as the claim requires of a state with no active
views. -/
theorem fresh_state_direction_mask_nonzero :
    (∀ i : Fin 8, (Ft232hInner.ofFt 0).pins i = none) ∧
    (Ft232hInner.ofFt 0).direction = 0xFB ∧
    ¬ (Ft232hInner.ofFt 0).direction = 0 :=
  ⟨fun _ => rfl, rfl, by decide⟩

/-- C5 (amended): the freshly created device state has an empty pin
ledger, value mask `0` and direction mask `0xFB`; and every modelled
device-state operation (ledger allocation, and the view constructors,
whose only device-state effect is their ledger claim) leaves both masks
unchanged, so the masks keep their creation values rather than tracking
the logical OR of the active views' configurations. -/
theorem masks_are_creation_constants :
    (∀ ft : Nat, (∀ i : Fin 8, (Ft232hInner.ofFt ft).pins i = none) ∧
        (Ft232hInner.ofFt ft).direction = 0xFB ∧
        (Ft232hInner.ofFt ft).value = 0) ∧
    (∀ (op : DeviceOp) (s : Ft232hInner),
        ((op.run s).2).direction = s.direction ∧
        ((op.run s).2).value = s.value) := by
  refine ⟨fun ft => ⟨fun _ => rfl, rfl, rfl⟩, fun op s => ?_⟩
  cases op with
  | allocate idx q =>
      exact ⟨(allocate_pin_masks s idx q).2.1, (allocate_pin_masks s idx q).2.2⟩
  | spiNew =>
      exact ⟨(allocSeq_masks [(0, PinUse.spi), (1, PinUse.spi), (2, PinUse.spi)] s).2.1,
             (allocSeq_masks [(0, PinUse.spi), (1, PinUse.spi), (2, PinUse.spi)] s).2.2⟩
  | i2cNew =>
      exact ⟨(allocSeq_masks [(0, PinUse.i2c), (1, PinUse.i2c), (2, PinUse.i2c)] s).2.1,
             (allocSeq_masks [(0, PinUse.i2c), (1, PinUse.i2c), (2, PinUse.i2c)] s).2.2⟩
  | outputNew idx =>
      exact ⟨(allocate_pin_masks s idx PinUse.output).2.1,
             (allocate_pin_masks s idx PinUse.output).2.2⟩

/-- C6: on any initialized wrapper, if acquiring SPI succeeded then
acquiring I2C on the resulting wrapper fails, and vice versa: both
constructors claim pins 0, 1 and 2 in the ledger, so the second
acquisition hits an occupied slot 0. -/
theorem spi_i2c_mutually_exclusive (hal : Ft232hHal Phase.initialized) :
    (hal.spi.1 = Except.ok () → ∃ e, (hal.spi.2).i2c.1 = Except.error e) ∧
    (hal.i2c.1 = Except.ok () → ∃ e, (hal.i2c.2).spi.1 = Except.error e) := by
  constructor
  · intro h
    have h' : (allocSeq [(0, PinUse.spi), (1, PinUse.spi), (2, PinUse.spi)]
        hal.inner).1 = Except.ok () := h
    obtain ⟨hlt, hp0⟩ := allocSeq_ok_claims _ hal.inner h' (0, PinUse.spi) (by simp)
    refine ⟨PinError.alreadyAllocated 0 PinUse.i2c PinUse.spi, ?_⟩
    show (allocSeq [(0, PinUse.i2c), (1, PinUse.i2c), (2, PinUse.i2c)]
        ((allocSeq [(0, PinUse.spi), (1, PinUse.spi), (2, PinUse.spi)]
          hal.inner).2)).1 = _
    rw [allocSeq_head_occupied 0 PinUse.i2c [(1, PinUse.i2c), (2, PinUse.i2c)]
        _ PinUse.spi hlt hp0]
  · intro h
    have h' : (allocSeq [(0, PinUse.i2c), (1, PinUse.i2c), (2, PinUse.i2c)]
        hal.inner).1 = Except.ok () := h
    obtain ⟨hlt, hp0⟩ := allocSeq_ok_claims _ hal.inner h' (0, PinUse.i2c) (by simp)
    refine ⟨PinError.alreadyAllocated 0 PinUse.spi PinUse.i2c, ?_⟩
    show (allocSeq [(0, PinUse.spi), (1, PinUse.spi), (2, PinUse.spi)]
        ((allocSeq [(0, PinUse.i2c), (1, PinUse.i2c), (2, PinUse.i2c)]
          hal.inner).2)).1 = _
    rw [allocSeq_head_occupied 0 PinUse.spi [(1, PinUse.spi), (2, PinUse.spi)]
        _ PinUse.i2c hlt hp0]

/-- C6 witness: on a freshly initialized wrapper, acquiring SPI succeeds
and the subsequent I2C acquisition fails. -/
theorem spi_i2c_mutually_exclusive_witness :
    (Ft232hHal.ofFt 0).init_default.1.spi.1 = Except.ok () ∧
    (∃ e, ((Ft232hHal.ofFt 0).init_default.1.spi.2).i2c.1 = Except.error e) :=
  ⟨rfl, (spi_i2c_mutually_exclusive (Ft232hHal.ofFt 0).init_default.1).1 rfl⟩

/-- C7: on any initialized wrapper, acquiring the output pin at a free
index `k` succeeds; a second acquisition at `k` on the resulting wrapper
fails with the already-allocated panic; and acquisition at any other
index that is still free succeeds. -/
theorem output_pin_exclusive (hal : Ft232hHal Phase.initialized) (k : Nat)
    (hk : k < 8) (hfree : hal.inner.pins ⟨k, hk⟩ = none) :
    (hal.adPin k).1 = Except.ok () ∧
    ((hal.adPin k).2.adPin k).1
      = Except.error (PinError.alreadyAllocated k PinUse.output PinUse.output) ∧
    (∀ (j : Nat) (hj : j < 8), j ≠ k → hal.inner.pins ⟨j, hj⟩ = none →
      ((hal.adPin k).2.adPin j).1 = Except.ok ()) := by
  have hupd := allocate_pin_free hal.inner k PinUse.output hk hfree
  have hown : (hal.inner.allocate_pin k PinUse.output).2.pins ⟨k, hk⟩
      = some PinUse.output := by
    rw [hupd]; simp [Function.update_same]
  refine ⟨?_, ?_, ?_⟩
  · show (hal.inner.allocate_pin k PinUse.output).1 = Except.ok ()
    rw [hupd]
  · show ((hal.inner.allocate_pin k PinUse.output).2.allocate_pin
        k PinUse.output).1 = _
    rw [allocate_pin_occupied _ k PinUse.output PinUse.output hk hown]
  · intro j hj hne hjfree
    show ((hal.inner.allocate_pin k PinUse.output).2.allocate_pin
        j PinUse.output).1 = Except.ok ()
    have hjfree2 : (hal.inner.allocate_pin k PinUse.output).2.pins ⟨j, hj⟩
        = none := by
      rw [hupd]
      show Function.update hal.inner.pins ⟨k, hk⟩ (some PinUse.output) ⟨j, hj⟩
          = none
      rw [Function.update_noteq (by simpa [Fin.ext_iff] using hne)]
      exact hjfree
    rw [allocate_pin_free _ j PinUse.output hj hjfree2]

/-- C7 witness: on a freshly initialized wrapper, acquiring output pin 4
succeeds, acquiring pin 4 again fails naming GPIO as both purposes, and
acquiring the still-free pin 6 afterwards succeeds. -/
theorem output_pin_exclusive_witness :
    ((Ft232hHal.ofFt 0).init_default.1.adPin 4).1 = Except.ok () ∧
    (((Ft232hHal.ofFt 0).init_default.1.adPin 4).2.adPin 4).1
      = Except.error (PinError.alreadyAllocated 4 PinUse.output PinUse.output) ∧
    (((Ft232hHal.ofFt 0).init_default.1.adPin 4).2.adPin 6).1 = Except.ok () := by
  have h := output_pin_exclusive (Ft232hHal.ofFt 0).init_default.1 4 (by decide) rfl
  exact ⟨h.1, h.2.1, h.2.2 6 (by decide) (by decide) rfl⟩

/-- C8: no view-producing operation is available in the Uninitialized
phase; the only operations yielding an Initialized wrapper are the two
initialization operations, which consume an Uninitialized wrapper; and
no operation taking an Initialized wrapper returns an Uninitialized
one. -/
theorem typestate_one_way (op : ApiOp) :
    (op.acquiresView = true → op.inputPhase = some Phase.initialized) ∧
    (op.outputPhase = some Phase.initialized →
      op.inputPhase = some Phase.uninitialized ∧ op.consumesWrapper = true ∧
      (op = ApiOp.init ∨ op = ApiOp.init_default)) ∧
    (op.inputPhase = some Phase.initialized →
      ¬ op.outputPhase = some Phase.uninitialized) := by
  cases op <;>
    simp [ApiOp.inputPhase, ApiOp.outputPhase, ApiOp.acquiresView,
      ApiOp.consumesWrapper]

/-- C8 witness: the SPI acquisition is an operation of the Initialized
phase, and `init` takes the Uninitialized phase and consumes its
wrapper. -/
theorem typestate_one_way_witness :
    ApiOp.spi.inputPhase = some Phase.initialized ∧
    ApiOp.init.inputPhase = some Phase.uninitialized ∧
    ApiOp.init.consumesWrapper = true :=
  ⟨(typestate_one_way ApiOp.spi).1 rfl,
   ((typestate_one_way ApiOp.init).2.1 rfl).1,
   ((typestate_one_way ApiOp.init).2.1 rfl).2.1⟩

/-- C9: allocation is monotonic: every device-state operation leaves an
occupied ledger slot holding exactly the purpose it already held,
whether the operation succeeds or fails. -/
theorem device_state_pins_monotonic (op : DeviceOp) (s : Ft232hInner)
    (p : Fin 8) (u : PinUse) (h : s.pins p = some u) :
    ((op.run s).2).pins p = some u := by
  cases op with
  | allocate idx q => exact allocate_pin_preserves s idx q p u h
  | spiNew =>
      exact allocSeq_preserves [(0, PinUse.spi), (1, PinUse.spi), (2, PinUse.spi)]
        s p u h
  | i2cNew =>
      exact allocSeq_preserves [(0, PinUse.i2c), (1, PinUse.i2c), (2, PinUse.i2c)]
        s p u h
  | outputNew idx => exact allocate_pin_preserves s idx PinUse.output p u h

/-- C9 witness: pin 3 claimed for GPIO stays claimed for GPIO across a
subsequent SPI view construction. -/
theorem device_state_pins_monotonic_witness :
    (((Ft232hInner.ofFt 0).allocate_pin 3 PinUse.output).2).pins ⟨3, by decide⟩
      = some PinUse.output ∧
    ((DeviceOp.spiNew.run
        ((Ft232hInner.ofFt 0).allocate_pin 3 PinUse.output).2).2).pins
      ⟨3, by decide⟩ = some PinUse.output :=
  ⟨rfl,
   device_state_pins_monotonic DeviceOp.spiNew
     ((Ft232hInner.ofFt 0).allocate_pin 3 PinUse.output).2 ⟨3, by decide⟩
     PinUse.output (by decide)⟩

/-- C10: a successful allocation at a free index `idx` writes only the
pin-table slot at `idx`: the driver handle, direction mask, value mask
and every other pin-table slot are unchanged. -/
theorem allocate_pin_frame (s : Ft232hInner) (idx : Nat) (purpose : PinUse)
    (h : idx < 8) (hfree : s.pins ⟨idx, h⟩ = none) :
    (s.allocate_pin idx purpose).1 = Except.ok () ∧
    ((s.allocate_pin idx purpose).2).pins ⟨idx, h⟩ = some purpose ∧
    ((s.allocate_pin idx purpose).2).ft = s.ft ∧
    ((s.allocate_pin idx purpose).2).direction = s.direction ∧
    ((s.allocate_pin idx purpose).2).value = s.value ∧
    (∀ j : Fin 8, j ≠ ⟨idx, h⟩ →
      ((s.allocate_pin idx purpose).2).pins j = s.pins j) := by
  rw [allocate_pin_free s idx purpose h hfree]
  refine ⟨rfl, by simp [Function.update_same], rfl, rfl, rfl, fun j hj => ?_⟩
  exact Function.update_noteq hj _ _

/-- C10 witness: claiming pin 2 for I2C on a fresh device leaves the
direction mask and the slot of pin 5 as they were. -/
theorem allocate_pin_frame_witness :
    (Ft232hInner.ofFt 0).pins ⟨2, by decide⟩ = none ∧
    (((Ft232hInner.ofFt 0).allocate_pin 2 PinUse.i2c).2).direction
      = (Ft232hInner.ofFt 0).direction ∧
    (((Ft232hInner.ofFt 0).allocate_pin 2 PinUse.i2c).2).pins ⟨5, by decide⟩
      = (Ft232hInner.ofFt 0).pins ⟨5, by decide⟩ := by
  have h := allocate_pin_frame (Ft232hInner.ofFt 0) 2 PinUse.i2c (by decide) rfl
  exact ⟨rfl, h.2.2.2.1, h.2.2.2.2.2 ⟨5, by decide⟩ (by decide)⟩
